import Mathlib

/-!
Shallow embedding of `src/multicolvar/MultiColvarDensity.cpp` (PLUMED 2):
the MULTICOLVARDENS grid-accumulation action.  Doubles are modelled as
rationals; the global numerical tolerance `epsilon`
(`std::numeric_limits<double>::epsilon()` in `tools/Tools.h`) is modelled
as the rational `1 / 2 ^ 52`.  Parts of the program that live outside the
provided sources (the grid vessel internals, the periodic-boundary
helpers in `tools/Pbc`) are modelled from the specification and carry a
doc comment saying so.
-/

namespace MultiColvarDens

/-- Machine epsilon used by PLUMED for numerical tolerance comparisons. -/
def epsilon : ℚ := 1 / 2 ^ 52

/-- A triple of rational coordinates standing for a PLMD::Vector. -/
structure Vec3 where
  x : ℚ
  y : ℚ
  z : ℚ
deriving DecidableEq

/-- Component access, axis 0 = x, 1 = y, 2 = z. -/
def Vec3.get (v : Vec3) (i : Fin 3) : ℚ :=
  if i = 0 then v.x else if i = 1 then v.y else v.z

/-- The parsed keyword values handed to the MultiColvarDensity constructor:
`ORIGIN` (number of atoms in the list), `FRACTIONAL`, `DIR`, `NBINS`,
`SPACING`, the per-axis `REDUCED`/`LOWER`/`UPPER` keywords, `NOMEMORY`,
`UNORMALIZED`, and whether the input multicolvar is a density. -/
structure ActionOptions where
  originAtomCount : Nat
  fractional : Bool
  dir : String
  nbins : List Nat
  gspacing : List ℚ
  xreduced : Bool
  xlower : ℚ
  xupper : ℚ
  yreduced : Bool
  ylower : ℚ
  yupper : ℚ
  zreduced : Bool
  zlower : ℚ
  zupper : ℚ
  nomemory : Bool
  unormalized : Bool
  isDensity : Bool
deriving DecidableEq

/-- The DIR keyword parsing of the constructor (lines 185-210): each valid
string fixes the ordered list of configured axes. -/
def parseDirKeyword : String → Option (List (Fin 3))
  | "x" => some [0]
  | "y" => some [1]
  | "z" => some [2]
  | "xy" => some [0, 1]
  | "xz" => some [0, 2]
  | "yz" => some [1, 2]
  | "xyz" => some [0, 1, 2]
  | _ => none

/-- The `XREDUCED` / `YREDUCED` / `ZREDUCED` flag for an axis. -/
def reducedFlag (o : ActionOptions) (d : Fin 3) : Bool :=
  if d = 0 then o.xreduced else if d = 1 then o.yreduced else o.zreduced

/-- The `XLOWER` / `YLOWER` / `ZLOWER` value for an axis. -/
def lowerFor (o : ActionOptions) (d : Fin 3) : ℚ :=
  if d = 0 then o.xlower else if d = 1 then o.ylower else o.zlower

/-- The `XUPPER` / `YUPPER` / `ZUPPER` value for an axis. -/
def upperFor (o : ActionOptions) (d : Fin 3) : ℚ :=
  if d = 0 then o.xupper else if d = 1 then o.yupper else o.zupper

/-- Per-configured-axis state built by the constructor loop (lines 215-242):
the axis index and, when the axis is confined, its literal bounds. -/
structure AxisCfg where
  dir : Fin 3
  confined : Bool
  cmin : ℚ
  cmax : ℚ
deriving DecidableEq

def axisDefault : AxisCfg := { dir := 0, confined := false, cmin := 0, cmax := 0 }

instance : Inhabited AxisCfg := ⟨axisDefault⟩

/-- One iteration of the constructor loop over `directions` (lines 216-242):
read the REDUCED flag; when set, read the bounds, reject if FRACTIONAL is
set, reject a degenerate range. -/
def axisSetup (o : ActionOptions) (d : Fin 3) : Except String AxisCfg :=
  if reducedFlag o d then
    if o.fractional then .error "REDUCED is incompatible with FRACTIONAL"
    else if |lowerFor o d - upperFor o d| < epsilon then
      .error "range set for axis makes no sense"
    else .ok { dir := d, confined := true, cmin := lowerFor o d, cmax := upperFor o d }
  else .ok { dir := d, confined := false, cmin := 0, cmax := 0 }

/-- The constructor loop over all configured axes, stopping at the first
axis that fails its checks, as the C++ `error` call does. -/
def axisLoop (o : ActionOptions) : List (Fin 3) → Except String (List AxisCfg)
  | [] => .ok []
  | d :: rest =>
    match axisSetup o d with
    | .error e => .error e
    | .ok c =>
      match axisLoop o rest with
      | .error e => .error e
      | .ok cs => .ok (c :: cs)

/-- The configured action state after a successful constructor run
(fields of the MultiColvarDensity class; `single_run` is initialised to
true in the constructor initialiser list, line 169). -/
structure Action where
  fractional : Bool
  nomemory : Bool
  single_run : Bool
  axes : List AxisCfg
  nbins : List Nat
  gspacing : List ℚ
  isDensity : Bool
  unormalized : Bool
deriving DecidableEq

/-- The MultiColvarDensity constructor (lines 163-285): exactly one ORIGIN
atom, a valid DIR keyword, NBINS or SPACING matching the axis count, then
the per-axis confinement checks. -/
def mkAction (o : ActionOptions) : Except String Action :=
  if o.originAtomCount ≠ 1 then .error "should only be one atom specified"
  else
    match parseDirKeyword o.dir with
    | none => .error "is not valid gradient direction"
    | some ds =>
      if o.nbins.length ≠ ds.length ∧ o.gspacing.length ≠ ds.length then
        .error "NBINS or SPACING must be set"
      else
        match axisLoop o ds with
        | .error e => .error e
        | .ok cfgs =>
          .ok { fractional := o.fractional, nomemory := o.nomemory, single_run := true,
                axes := cfgs, nbins := o.nbins, gspacing := o.gspacing,
                isDensity := o.isDensity, unormalized := o.unormalized }

/-- The number of quantities set by each task (lines 287-289):
one weight, one mapped coordinate per configured axis, one colvar value. -/
def getNumberOfQuantities (a : Action) : Nat := a.axes.length + 2

/-- The periodicity flags handed to the grid through the `PBC=` field of
the vessel input string (lines 244-250): `F` for a confined axis, `T`
otherwise. -/
def gridPbc (a : Action) : List Bool := a.axes.map fun c => !c.confined

/-- Modelled from the spec: the GridStore state owned by the external
`gridtools::HistogramOnGrid` / `AverageOnGrid` vessel, which is not under
`src/`.  The update path of MultiColvarDensity touches its bounds
(`setBounds` / `getMax`), its normalization counter (`setNorm` /
`getNorm`), and its reset signal (`wasreset`, cleared by binding and set
by an upstream clear event); `reset` zeroes the normalization.  Cell
contents are not consulted by any code under `src/` and are omitted. -/
structure GridState where
  wasreset : Bool
  gmin : List ℚ
  gmax : List ℚ
  norm : ℚ
deriving DecidableEq

/-- The grid as the constructor leaves it: unbound (so the first update
takes the rebind branch) with normalization zero (`setNorm(0)`, line 272). -/
def initialGrid : GridState := { wasreset := true, gmin := [], gmax := [], norm := 0 }

/-- The per-frame inputs consumed by one update call: the step counter,
the simulation cell (orthorhombicity and diagonal extents), and the
current position of the origin atom. -/
structure Frame where
  step : Nat
  orthorhombic : Bool
  boxDiag : Vec3
  originPos : Vec3
deriving DecidableEq

/-- The per-axis bound computation of the rebind branch (lines 295-311):
start from [-0.5, 0.5]; when not FRACTIONAL, scale by the box diagonal
entry for an unconfined axis, or take the literal confinement bounds. -/
def axisBounds (a : Action) (f : Frame) (c : AxisCfg) : ℚ × ℚ :=
  let mn : ℚ := -(1 : ℚ) / 2
  let mx : ℚ := (1 : ℚ) / 2
  if a.fractional = false then
    if c.confined = false then
      (mn * f.boxDiag.get c.dir, mx * f.boxDiag.get c.dir)
    else (c.cmin, c.cmax)
  else (mn, mx)

/-- The bounds-consistency loop of the non-rebind branch (lines 316-319):
the check fires when twice the stored upper bound of some configured axis
differs from the current box diagonal entry by more than `epsilon`. -/
def boxCheckFails (a : Action) (g : GridState) (f : Frame) : Bool :=
  (a.axes.zip g.gmax).any fun p => decide (epsilon < |2 * p.2 - f.boxDiag.get p.1.dir|)

/-- Result of one update call: skipped (the early return of line 292),
failed with an `error(...)` message, or ran the tasks, yielding the new
grid state and the origin position used for the mapping. -/
inductive UpdateResult where
  | skipped (g : GridState)
  | err (msg : String)
  | ran (g : GridState) (origin : Vec3)
deriving DecidableEq

def geometryErrorMsg : String :=
  "density profiles with non-orthorhombic cells do not work"

def volatileBoxErrorMsg : String :=
  "box size should be fixed.  Use FRACTIONAL"

/-- The tail of the update call (lines 321-328): re-read the origin,
bump the normalization by one for a density-type field, run all tasks. -/
def runTasks (a : Action) (g : GridState) (f : Frame) : UpdateResult :=
  .ran (if a.isDensity then { g with norm := g.norm + 1 } else g) f.originPos

/-- `MultiColvarDensity::update` (lines 291-329). -/
def update (a : Action) (g : GridState) (f : Frame) : UpdateResult :=
  if a.single_run = false ∧ f.step = 0 then .skipped g
  else if g.wasreset = true then
    if a.fractional = false ∧ f.orthorhombic = false then .err geometryErrorMsg
    else
      let bs := a.axes.map (axisBounds a f)
      runTasks a
        { wasreset := false, gmin := bs.map Prod.fst, gmax := bs.map Prod.snd, norm := 0 } f
  else if boxCheckFails a g f then .err volatileBoxErrorMsg
  else runTasks a g f

/-- Iterate `update` over a list of frames, succeeding only when every
frame is actually processed (neither skipped nor failed). -/
def runFrames (a : Action) : GridState → List Frame → Option GridState
  | g, [] => some g
  | g, f :: fs =>
    match update a g f with
    | .ran g' _ => runFrames a g' fs
    | _ => none

/-- Modelled from the spec: the minimum-image convention applied to one
component of a displacement for an orthorhombic cell of extent `L`
(`tools/Pbc`, not under `src/`). -/
def minImage (d L : ℚ) : ℚ := d - L * (round (d / L) : ℤ)

/-- Modelled from the spec: `pbcDistance(a, b)`, the periodic-image
corrected displacement from `a` to `b` (`tools/Pbc`, not under `src/`). -/
def pbcDistance (boxDiag : Vec3) (a b : Vec3) : Vec3 :=
  { x := minImage (b.x - a.x) boxDiag.x,
    y := minImage (b.y - a.y) boxDiag.y,
    z := minImage (b.z - a.z) boxDiag.z }

/-- Modelled from the spec: `Pbc::realToScaled`, the conversion of a
displacement to box-fractional coordinates for an orthorhombic cell
(`tools/Pbc`, not under `src/`). -/
def realToScaled (boxDiag : Vec3) (v : Vec3) : Vec3 :=
  { x := v.x / boxDiag.x, y := v.y / boxDiag.y, z := v.z / boxDiag.z }

/-- `MultiColvarDensity::performTask` (lines 331-338): the stored quantity
vector `cvals` gives the weight (`cvals[0]`) and the colvar value
(`cvals[1]`); the displacement from the origin to the particle is
periodic-image corrected and, in FRACTIONAL mode, box-scaled; the task
value vector holds the weight, then one coordinate per configured axis in
order, then the colvar value. -/
def performTask (a : Action) (boxDiag : Vec3) (origin atomPos : Vec3)
    (cvals : List ℚ) : List ℚ :=
  let apos := pbcDistance boxDiag origin atomPos
  let fpos := if a.fractional = true then realToScaled boxDiag apos else apos
  cvals.getD 0 0 :: (a.axes.map fun c => fpos.get c.dir) ++ [cvals.getD 1 0]

/-- Whether a constructor run was rejected with a configuration error. -/
def setupFails (r : Except String Action) : Bool :=
  match r with
  | .error _ => true
  | .ok _ => false

/-- Whether an update call took the early return of line 292. -/
def isSkipped : UpdateResult → Bool
  | .skipped _ => true
  | _ => false

/-- A baseline configuration: density-type input, DIR=x, NBINS=100,
no FRACTIONAL, no confinement. -/
def oDensX : ActionOptions :=
  { originAtomCount := 1, fractional := false, dir := "x", nbins := [100], gspacing := [],
    xreduced := false, xlower := 0, xupper := 0, yreduced := false, ylower := 0, yupper := 0,
    zreduced := false, zlower := 0, zupper := 0, nomemory := false, unormalized := false,
    isDensity := true }

/-- The action state the constructor builds from `oDensX`. -/
def aDensX : Action :=
  { fractional := false, nomemory := false, single_run := true,
    axes := [{ dir := 0, confined := false, cmin := 0, cmax := 0 }],
    nbins := [100], gspacing := [], isDensity := true, unormalized := false }

/-- The baseline configuration with FRACTIONAL set and an average-type input. -/
def oFracX : ActionOptions := { oDensX with fractional := true, isDensity := false }

/-- The action state the constructor builds from `oFracX`. -/
def aFracX : Action := { aDensX with fractional := true, isDensity := false }

/-- The fractional grid after binding: bounds [-1/2, 1/2]. -/
def gFracBound : GridState :=
  { wasreset := false, gmin := [-(1 : ℚ) / 2], gmax := [(1 : ℚ) / 2], norm := 0 }

/-- The baseline configuration with the x axis confined to [2, 4]. -/
def oRedX : ActionOptions := { oDensX with xreduced := true, xlower := 2, xupper := 4 }

/-- The action state the constructor builds from `oRedX`. -/
def aRedX : Action :=
  { aDensX with axes := [{ dir := 0, confined := true, cmin := 2, cmax := 4 }] }

/-- Confinement of x requested together with FRACTIONAL. -/
def oFracRedX : ActionOptions := { oRedX with fractional := true }

/-- A degenerate confined range on the x axis. -/
def oDegenX : ActionOptions := { oDensX with xreduced := true, xlower := 1, xupper := 1 }

/-- Neither NBINS nor SPACING supplied for the one configured axis. -/
def oNoBins : ActionOptions := { oDensX with nbins := [] }

/-- Two ORIGIN atoms supplied. -/
def oTwoAtoms : ActionOptions := { oDensX with originAtomCount := 2 }

/-- An orthorhombic frame with a cubic box of side 10, at step 1. -/
def fOrtho : Frame :=
  { step := 1, orthorhombic := true, boxDiag := ⟨10, 10, 10⟩, originPos := ⟨1, 2, 3⟩ }

/-- The same frame with a non-orthorhombic cell. -/
def fNonOrtho : Frame := { fOrtho with orthorhombic := false }

/-- The same frame at step 0. -/
def fStep0 : Frame := { fOrtho with step := 0 }

/-- The density grid bound to the side-10 box after one processed frame. -/
def gDensBound : GridState := { wasreset := false, gmin := [-5], gmax := [5], norm := 1 }

theorem update_eq (a : Action) (g : GridState) (f : Frame) :
    update a g f =
      if a.single_run = false ∧ f.step = 0 then .skipped g
      else if g.wasreset = true then
        if a.fractional = false ∧ f.orthorhombic = false then .err geometryErrorMsg
        else runTasks a
          { wasreset := false,
            gmin := (a.axes.map (axisBounds a f)).map Prod.fst,
            gmax := (a.axes.map (axisBounds a f)).map Prod.snd,
            norm := 0 } f
      else if boxCheckFails a g f then .err volatileBoxErrorMsg
      else runTasks a g f := rfl

theorem mkAction_oDensX : mkAction oDensX = .ok aDensX := by
  simp [mkAction, oDensX, aDensX, parseDirKeyword, axisLoop, axisSetup, reducedFlag]

theorem mkAction_oFracX : mkAction oFracX = .ok aFracX := by
  simp [mkAction, oFracX, oDensX, aFracX, aDensX, parseDirKeyword, axisLoop, axisSetup,
    reducedFlag]

theorem mkAction_oRedX : mkAction oRedX = .ok aRedX := by
  simp [mkAction, oRedX, oDensX, aRedX, aDensX, parseDirKeyword, axisLoop, axisSetup,
    reducedFlag, lowerFor, upperFor, epsilon]
  norm_num

theorem update_aDensX_first : update aDensX initialGrid fOrtho = .ran gDensBound ⟨1, 2, 3⟩ := by
  simp [update, aDensX, initialGrid, fOrtho, runTasks, axisBounds, Vec3.get, gDensBound]
  norm_num

theorem update_aDensX_step0 : update aDensX initialGrid fStep0 = .ran gDensBound ⟨1, 2, 3⟩ := by
  simp [update, aDensX, initialGrid, fStep0, fOrtho, runTasks, axisBounds, Vec3.get, gDensBound]
  norm_num

theorem update_aFracX_first : update aFracX initialGrid fOrtho = .ran gFracBound ⟨1, 2, 3⟩ := by
  simp [update, aFracX, aDensX, initialGrid, fOrtho, runTasks, axisBounds, Vec3.get, gFracBound]

theorem update_aFracX_nonortho :
    update aFracX initialGrid fNonOrtho = .ran gFracBound ⟨1, 2, 3⟩ := by
  simp [update, aFracX, aDensX, initialGrid, fNonOrtho, fOrtho, runTasks, axisBounds,
    Vec3.get, gFracBound]

theorem update_aFracX_second :
    update aFracX gFracBound fOrtho = .err volatileBoxErrorMsg := by
  simp [update, aFracX, aDensX, gFracBound, fOrtho, boxCheckFails, Vec3.get, epsilon]
  norm_num

theorem runFrames_aDensX_two :
    runFrames aDensX initialGrid [fOrtho, fOrtho] = some ⟨false, [-5], [5], 2⟩ := by
  simp [runFrames, update, aDensX, initialGrid, fOrtho, runTasks, axisBounds, Vec3.get,
    boxCheckFails, epsilon]
  norm_num

theorem axisLoop_err_of_mem (o : ActionOptions) (ds : List (Fin 3)) (d : Fin 3) (e : String)
    (hmem : d ∈ ds) (he : axisSetup o d = .error e) :
    ∃ e2, axisLoop o ds = .error e2 := by
  induction ds with
  | nil => cases hmem
  | cons hd tl ih =>
    rcases List.mem_cons.mp hmem with h | h
    · subst h
      exact ⟨e, by simp [axisLoop, he]⟩
    · cases hset : axisSetup o hd with
      | error e2 => exact ⟨e2, by simp [axisLoop, hset]⟩
      | ok c =>
        rcases ih h with ⟨e2, h2⟩
        exact ⟨e2, by simp [axisLoop, hset, h2]⟩

theorem axisLoop_ok_mem (o : ActionOptions) :
    ∀ (ds : List (Fin 3)) (cs : List AxisCfg), axisLoop o ds = .ok cs →
      ∀ c ∈ cs, ∃ d, axisSetup o d = .ok c := by
  intro ds
  induction ds with
  | nil =>
    intro cs h c hc
    simp [axisLoop] at h
    subst h
    simp at hc
  | cons hd tl ih =>
    intro cs h c hc
    simp only [axisLoop] at h
    cases hset : axisSetup o hd with
    | error e => rw [hset] at h; simp at h
    | ok c0 =>
      rw [hset] at h
      cases hloop : axisLoop o tl with
      | error e => rw [hloop] at h; simp at h
      | ok cs0 =>
        rw [hloop] at h
        simp only [] at h
        injection h with h2
        subst h2
        rcases List.mem_cons.mp hc with h | h
        · subst h; exact ⟨hd, hset⟩
        · exact ih cs0 hloop c h

theorem axisSetup_ok_confined (o : ActionOptions) (d : Fin 3) (c : AxisCfg)
    (h : axisSetup o d = .ok c) (hc : c.confined = true) : o.fractional = false := by
  unfold axisSetup at h
  split at h
  · split at h
    · simp at h
    · rename_i hfrac
      exact Bool.not_eq_true o.fractional ▸ hfrac
  · injection h with h2
    rw [← h2] at hc
    simp at hc

theorem mkAction_ok_inv (o : ActionOptions) (a : Action) (h : mkAction o = .ok a) :
    o.originAtomCount = 1 ∧ a.fractional = o.fractional ∧ a.single_run = true ∧
      ∃ ds, parseDirKeyword o.dir = some ds ∧ axisLoop o ds = .ok a.axes := by
  unfold mkAction at h
  split at h
  · simp at h
  · rename_i hatoms
    push_neg at hatoms
    split at h
    · simp at h
    · rename_i ds hdir
      split at h
      · simp at h
      · split at h
        · simp at h
        · rename_i cfgs hloop
          injection h with h2
          subst h2
          exact ⟨hatoms, rfl, rfl, ds, hdir, hloop⟩

theorem mkAction_confined_not_fractional (o : ActionOptions) (a : Action) (c : AxisCfg)
    (h : mkAction o = .ok a) (hc : c ∈ a.axes) (hcon : c.confined = true) :
    a.fractional = false := by
  rcases mkAction_ok_inv o a h with ⟨-, hfrac, -, ds, -, hloop⟩
  rcases axisLoop_ok_mem o ds a.axes hloop c hc with ⟨d, hset⟩
  rw [hfrac]
  exact axisSetup_ok_confined o d c hset hcon

/-- Claim C5: requesting axis confinement (XREDUCED/YREDUCED/ZREDUCED) on a
configured axis together with FRACTIONAL is rejected by the constructor,
before any frame is processed. -/
theorem c5_fractional_confinement_rejected (o : ActionOptions) (ds : List (Fin 3)) (d : Fin 3)
    (hds : parseDirKeyword o.dir = some ds) (hmem : d ∈ ds)
    (hred : reducedFlag o d = true) (hfrac : o.fractional = true) :
    setupFails (mkAction o) = true := by
  unfold mkAction
  split
  · rfl
  · rw [hds]
    simp only []
    split
    · rfl
    · have he : axisSetup o d = .error "REDUCED is incompatible with FRACTIONAL" := by
        simp [axisSetup, hred, hfrac]
      rcases axisLoop_err_of_mem o ds d _ hmem he with ⟨e2, h2⟩
      rw [h2]
      rfl

theorem c5_witness : setupFails (mkAction oFracRedX) = true :=
  c5_fractional_confinement_rejected oFracRedX [0] 0 (by decide) (by decide) (by decide)
    (by decide)

/-- Claim C6: setup fails with a configuration error when neither NBINS nor
SPACING matches the number of configured axes, and when a confined axis is
given a degenerate range (difference below the numerical tolerance); both
checks run in the constructor, before any frame. -/
theorem c6_setup_validation (o : ActionOptions) (ds : List (Fin 3)) (d : Fin 3)
    (hds : parseDirKeyword o.dir = some ds) :
    (o.originAtomCount = 1 → o.nbins.length ≠ ds.length → o.gspacing.length ≠ ds.length →
       mkAction o = .error "NBINS or SPACING must be set")
    ∧ (d ∈ ds → reducedFlag o d = true → o.fractional = false →
       |lowerFor o d - upperFor o d| < epsilon → setupFails (mkAction o) = true) := by
  constructor
  · intro h1 h2 h3
    unfold mkAction
    rw [if_neg (by omega), hds]
    simp only []
    rw [if_pos ⟨h2, h3⟩]
  · intro hmem hred hfrac hdeg
    unfold mkAction
    split
    · rfl
    · rw [hds]
      simp only []
      split
      · rfl
      · have he : axisSetup o d = .error "range set for axis makes no sense" := by
          simp [axisSetup, hred, hfrac, hdeg]
        rcases axisLoop_err_of_mem o ds d _ hmem he with ⟨e2, h2⟩
        rw [h2]
        rfl

theorem c6_witness :
    mkAction oNoBins = .error "NBINS or SPACING must be set"
    ∧ setupFails (mkAction oDegenX) = true :=
  ⟨(c6_setup_validation oNoBins [0] 0 (by decide)).1 (by decide) (by decide) (by decide),
   (c6_setup_validation oDegenX [0] 0 (by decide)).2 (by decide) (by decide) (by decide)
     (by norm_num [lowerFor, upperFor, epsilon, oDegenX, oDensX])⟩

/-- Claim C9: the periodicity flag handed to the grid is false exactly when
the axis is confined; a confined axis furthermore takes its bounds verbatim
from the configuration whenever the grid is rebound. -/
theorem c9_grid_periodicity (o : ActionOptions) (a : Action) (f : Frame)
    (h : mkAction o = .ok a) (i : Nat) (hi : i < a.axes.length) :
    ((gridPbc a).get ⟨i, by simpa [gridPbc] using hi⟩ = false
        ↔ (a.axes.get ⟨i, hi⟩).confined = true)
    ∧ ((a.axes.get ⟨i, hi⟩).confined = true →
        axisBounds a f (a.axes.get ⟨i, hi⟩)
          = ((a.axes.get ⟨i, hi⟩).cmin, (a.axes.get ⟨i, hi⟩).cmax)) := by
  constructor
  · simp [gridPbc]
  · intro hcon
    have hfrac : a.fractional = false :=
      mkAction_confined_not_fractional o a (a.axes.get ⟨i, hi⟩) h
        (a.axes.get_mem i hi) hcon
    simp only [axisBounds]
    rw [hfrac, hcon]
    simp

theorem c9_witness :
    ((gridPbc aRedX).get ⟨0, by decide⟩ = false
        ↔ (aRedX.axes.get ⟨0, by decide⟩).confined = true)
    ∧ ((aRedX.axes.get ⟨0, by decide⟩).confined = true →
        axisBounds aRedX fOrtho (aRedX.axes.get ⟨0, by decide⟩)
          = ((aRedX.axes.get ⟨0, by decide⟩).cmin, (aRedX.axes.get ⟨0, by decide⟩).cmax)) :=
  c9_grid_periodicity oRedX aRedX fOrtho mkAction_oRedX 0 (by decide)

/-- Claim C10: setup rejects an ORIGIN atom list whose size is not one, and
every update call that runs the tasks uses the current frame position of
that single atom as the mapping origin. -/
theorem c10_origin_handling (o : ActionOptions) (a : Action) (g : GridState) (f : Frame)
    (g2 : GridState) (p : Vec3) :
    (o.originAtomCount ≠ 1 → mkAction o = .error "should only be one atom specified")
    ∧ (update a g f = .ran g2 p → p = f.originPos) := by
  constructor
  · intro h
    unfold mkAction
    rw [if_pos h]
  · intro h
    rw [update_eq] at h
    split at h
    · simp at h
    · split at h
      · split at h
        · simp at h
        · unfold runTasks at h
          injection h with h1 h2
          exact h2.symm
      · split at h
        · simp at h
        · unfold runTasks at h
          injection h with h1 h2
          exact h2.symm

theorem c10_witness :
    mkAction oTwoAtoms = .error "should only be one atom specified"
    ∧ (⟨1, 2, 3⟩ : Vec3) = fOrtho.originPos :=
  ⟨(c10_origin_handling oTwoAtoms aDensX initialGrid fOrtho gDensBound ⟨1, 2, 3⟩).1
      (by decide),
   (c10_origin_handling oTwoAtoms aDensX initialGrid fOrtho gDensBound ⟨1, 2, 3⟩).2
      update_aDensX_first⟩

theorem update_ran_no_reset (a : Action) (g : GridState) (f : Frame) (g2 : GridState)
    (p : Vec3) (hreset : g.wasreset = false) (h : update a g f = .ran g2 p)
    (hd : a.isDensity = true) : g2.norm = g.norm + 1 ∧ g2.wasreset = false := by
  rw [update_eq] at h
  split at h
  · simp at h
  · split at h
    · rename_i hcond
      rw [hreset] at hcond
      simp at hcond
    · split at h
      · simp at h
      · unfold runTasks at h
        rw [hd] at h
        injection h with h1 h2
        rw [← h1]
        simp [hreset]

theorem update_ran_reset_density (a : Action) (g : GridState) (f : Frame) (g2 : GridState)
    (p : Vec3) (hreset : g.wasreset = true) (h : update a g f = .ran g2 p)
    (hd : a.isDensity = true) : g2.norm = 1 ∧ g2.wasreset = false := by
  rw [update_eq] at h
  split at h
  · simp at h
  · split at h
    · simp at h
    · unfold runTasks at h
      rw [hd] at h
      rw [if_pos rfl] at h
      injection h with h1 h2
      rw [← h1]
      norm_num

theorem runFrames_norm (a : Action) (fs : List Frame) :
    ∀ (g g2 : GridState), g.wasreset = false → a.isDensity = true →
      runFrames a g fs = some g2 →
      g2.norm = g.norm + fs.length ∧ g2.wasreset = false := by
  induction fs with
  | nil =>
    intro g g2 hr hd h
    simp [runFrames] at h
    subst h
    simp [hr]
  | cons f fs ih =>
    intro g g2 hr hd h
    rw [runFrames] at h
    cases hu : update a g f with
    | ran g1 p =>
      rw [hu] at h
      rcases update_ran_no_reset a g f g1 p hr hu hd with ⟨h1, h2⟩
      rcases ih g1 g2 h2 hd h with ⟨h3, h4⟩
      refine ⟨?_, h4⟩
      rw [h3, h1]
      simp only [List.length_cons]
      push_cast
      ring
    | skipped g1 => rw [hu] at h; simp at h
    | err e => rw [hu] at h; simp at h

/-- Claim C3: for a density-type grid, the normalization starts at zero,
each processed frame adds exactly one to it, and a run of K processed
frames from the freshly constructed grid ends with normalization K. -/
theorem c3_density_normalization (a : Action) (fs : List Frame) (g2 : GridState)
    (hd : a.isDensity = true) (h : runFrames a initialGrid fs = some g2) :
    g2.norm = fs.length
    ∧ (∀ (g : GridState) (f : Frame) (g3 : GridState) (p : Vec3),
        g.wasreset = false → update a g f = .ran g3 p → g3.norm = g.norm + 1) := by
  constructor
  · cases fs with
    | nil =>
      simp [runFrames] at h
      rw [← h]
      simp [initialGrid]
    | cons f fs =>
      rw [runFrames] at h
      cases hu : update a initialGrid f with
      | ran g1 p =>
        rw [hu] at h
        rcases update_ran_reset_density a initialGrid f g1 p rfl hu hd with ⟨h1, h2⟩
        rcases runFrames_norm a fs g1 g2 h2 hd h with ⟨h3, -⟩
        rw [h3, h1]
        simp only [List.length_cons]
        push_cast
        ring
      | skipped g1 => rw [hu] at h; simp at h
      | err e => rw [hu] at h; simp at h
  · intro g f g3 p hr hu
    exact (update_ran_no_reset a g f g3 p hr hu hd).1

theorem c3_witness :
    (⟨false, [-5], [5], 2⟩ : GridState).norm = (([fOrtho, fOrtho] : List Frame).length : ℚ) :=
  (c3_density_normalization aDensX [fOrtho, fOrtho] ⟨false, [-5], [5], 2⟩ rfl
    runFrames_aDensX_two).1

theorem axisBounds_fst (a : Action) (f : Frame) (c : AxisCfg) :
    (axisBounds a f c).1 =
      if a.fractional = true then -(1 : ℚ) / 2
      else if c.confined = true then c.cmin else -(f.boxDiag.get c.dir) / 2 := by
  rcases Bool.eq_false_or_eq_true a.fractional with hf | hf <;>
    rcases Bool.eq_false_or_eq_true c.confined with hc | hc <;>
      simp [axisBounds, hf, hc] <;> ring

theorem axisBounds_snd (a : Action) (f : Frame) (c : AxisCfg) :
    (axisBounds a f c).2 =
      if a.fractional = true then (1 : ℚ) / 2
      else if c.confined = true then c.cmax else f.boxDiag.get c.dir / 2 := by
  rcases Bool.eq_false_or_eq_true a.fractional with hf | hf <;>
    rcases Bool.eq_false_or_eq_true c.confined with hc | hc <;>
      simp [axisBounds, hf, hc] <;> ring

/-- Claim C7: whenever the grid is unbound or a reset was signaled, an
update call that runs the tasks rebinds the grid with per-axis bounds
[-1/2, 1/2] in FRACTIONAL mode, [-extent/2, extent/2] from the box
diagonal for an unconfined axis otherwise, and the literal confinement
values for a confined axis; the rebound grid leaves the reset state and
its normalization is cleared (then incremented once for a density field). -/
theorem c7_rebind_bounds (a : Action) (g : GridState) (f : Frame) (g2 : GridState)
    (p : Vec3) (hreset : g.wasreset = true) (h : update a g f = .ran g2 p) :
    g2.gmin = a.axes.map (fun c =>
        if a.fractional = true then -(1 : ℚ) / 2
        else if c.confined = true then c.cmin else -(f.boxDiag.get c.dir) / 2)
    ∧ g2.gmax = a.axes.map (fun c =>
        if a.fractional = true then (1 : ℚ) / 2
        else if c.confined = true then c.cmax else f.boxDiag.get c.dir / 2)
    ∧ g2.wasreset = false
    ∧ g2.norm = (if a.isDensity = true then (1 : ℚ) else 0) := by
  rw [update_eq] at h
  split at h
  · simp at h
  · split at h
    · simp at h
    · unfold runTasks at h
      cases hdd : a.isDensity with
      | true =>
        rw [hdd] at h
        rw [if_pos rfl] at h
        injection h with h1 h2
        rw [← h1]
        dsimp only
        refine ⟨?_, ?_, rfl, by norm_num⟩
        · rw [List.map_map]
          congr 1
          funext c
          exact axisBounds_fst a f c
        · rw [List.map_map]
          congr 1
          funext c
          exact axisBounds_snd a f c
      | false =>
        rw [hdd] at h
        rw [if_neg (by simp)] at h
        injection h with h1 h2
        rw [← h1]
        dsimp only
        refine ⟨?_, ?_, rfl, by norm_num⟩
        · rw [List.map_map]
          congr 1
          funext c
          exact axisBounds_fst a f c
        · rw [List.map_map]
          congr 1
          funext c
          exact axisBounds_snd a f c

theorem c7_witness :
    gDensBound.gmin = aDensX.axes.map (fun c =>
        if aDensX.fractional = true then -(1 : ℚ) / 2
        else if c.confined = true then c.cmin else -(fOrtho.boxDiag.get c.dir) / 2)
    ∧ gDensBound.gmax = aDensX.axes.map (fun c =>
        if aDensX.fractional = true then (1 : ℚ) / 2
        else if c.confined = true then c.cmax else fOrtho.boxDiag.get c.dir / 2)
    ∧ gDensBound.wasreset = false
    ∧ gDensBound.norm = (if aDensX.isDensity = true then (1 : ℚ) else 0) :=
  c7_rebind_bounds aDensX initialGrid fOrtho gDensBound ⟨1, 2, 3⟩ rfl update_aDensX_first

/-- Claim C1 counterexample: with FRACTIONAL requested and a
non-orthorhombic cell, a rebinding frame is processed without any
geometry error, in a configuration the constructor accepts; the claim
says this frame must fail. -/
theorem c1_counterexample :
    mkAction oFracX = .ok aFracX
    ∧ update aFracX initialGrid fNonOrtho = .ran gFracBound fNonOrtho.originPos :=
  ⟨mkAction_oFracX, update_aFracX_nonortho⟩

/-- Claim C1 (amended): the orthorhombicity check runs on rebinding frames
when FRACTIONAL is NOT requested, failing with the geometry error for a
non-orthorhombic cell; with FRACTIONAL requested no geometry error is ever
raised. -/
theorem c1_ortho_check_nonfractional_only (a : Action) (g : GridState) (f : Frame) :
    (g.wasreset = true → a.fractional = false → f.orthorhombic = false →
       ¬(a.single_run = false ∧ f.step = 0) → update a g f = .err geometryErrorMsg)
    ∧ (a.fractional = true → update a g f ≠ .err geometryErrorMsg) := by
  constructor
  · intro h1 h2 h3 h4
    rw [update_eq]
    rw [if_neg h4, if_pos h1, if_pos ⟨h2, h3⟩]
  · intro hf
    rw [update_eq]
    split
    · simp
    · split
      · split
        · rename_i hcond
          rw [hf] at hcond
          simp at hcond
        · simp [runTasks]
      · split
        · intro hcontra
          injection hcontra with hmsg
          exact absurd hmsg (by decide)
        · simp [runTasks]

theorem c1_witness : update aDensX initialGrid fNonOrtho = .err geometryErrorMsg :=
  (c1_ortho_check_nonfractional_only aDensX initialGrid fNonOrtho).1 rfl rfl rfl (by decide)

/-- Claim C4 counterexample: in the single-aggregate-run configuration
(the constructor default) the step-0 update is not skipped: it binds the
grid and runs the tasks; the claim says this call must skip. -/
theorem c4_counterexample :
    mkAction oDensX = .ok aDensX
    ∧ aDensX.single_run = true
    ∧ update aDensX initialGrid fStep0 = .ran gDensBound fStep0.originPos :=
  ⟨mkAction_oDensX, rfl, update_aDensX_step0⟩

/-- Claim C4 (amended): the update call skips exactly when the controller
is NOT in single-run mode (sub-windowing was configured) and the current
step is 0; in every other configuration, including single-run mode at
step 0, the update proceeds. -/
theorem c4_skip_iff (a : Action) (g : GridState) (f : Frame) :
    isSkipped (update a g f) = true ↔ a.single_run = false ∧ f.step = 0 := by
  rw [update_eq]
  split
  · rename_i hcond
    simp [isSkipped, hcond]
  · rename_i hcond
    split
    · split
      · simp [isSkipped, hcond]
      · simp [isSkipped, runTasks, hcond]
    · split
      · simp [isSkipped, hcond]
      · simp [isSkipped, runTasks, hcond]

/-- Claim C2 (code-bug exhibit): with FRACTIONAL set the bound upper bound
is 1/2, so on the second frame the bounds-consistency check compares 1
against the box extent and fires the volatile-box error although the box
never changed — the situation the error message says FRACTIONAL avoids;
the check is likewise not restricted to non-confined axes. -/
theorem c2_box_check_fires_under_fractional :
    mkAction oFracX = .ok aFracX
    ∧ update aFracX initialGrid fOrtho = .ran gFracBound fOrtho.originPos
    ∧ update aFracX gFracBound fOrtho = .err volatileBoxErrorMsg :=
  ⟨mkAction_oFracX, update_aFracX_first, update_aFracX_second⟩

theorem getD_map_lt (f : AxisCfg → ℚ) (dflt : AxisCfg) :
    ∀ (l : List AxisCfg) (j : Nat), j < l.length →
      (l.map f).getD j 0 = f (l.getD j dflt)
  | c :: l, 0, _ => by simp
  | c :: l, j + 1, h => by
      simp only [List.map_cons, List.getD_cons_succ]
      exact getD_map_lt f dflt l j (by simpa using h)
  | [], j, h => by simp at h

/-- Claim C8: the per-task value vector has (number of configured axes + 2)
entries: the particle weight at index 0, then exactly the coordinates of
the configured axes in configured order — taken from the periodic-image
corrected and, under FRACTIONAL, box-scaled displacement from the origin —
and the particle scalar value at the last index. -/
theorem c8_performTask_layout (a : Action) (boxDiag origin atomPos : Vec3)
    (cvals : List ℚ) :
    (performTask a boxDiag origin atomPos cvals).length = getNumberOfQuantities a
    ∧ (performTask a boxDiag origin atomPos cvals).getD 0 0 = cvals.getD 0 0
    ∧ (performTask a boxDiag origin atomPos cvals).getD (a.axes.length + 1) 0
        = cvals.getD 1 0
    ∧ ∀ j, j < a.axes.length →
        (performTask a boxDiag origin atomPos cvals).getD (1 + j) 0 =
          (if a.fractional = true
            then realToScaled boxDiag (pbcDistance boxDiag origin atomPos)
            else pbcDistance boxDiag origin atomPos).get (a.axes.getD j axisDefault).dir := by
  refine ⟨?_, ?_, ?_, ?_⟩
  · simp [performTask, getNumberOfQuantities]
  · simp [performTask]
  · simp only [performTask, List.getD_cons_succ]
    rw [List.getD_append_right]
    · simp
    · simp
  · intro j hj
    have h1 : 1 + j = j + 1 := Nat.add_comm 1 j
    simp only [performTask, h1, List.getD_cons_succ]
    rw [List.getD_append]
    · exact getD_map_lt _ axisDefault a.axes j hj
    · simpa using hj

theorem c8_witness :
    (performTask aFracX ⟨10, 10, 10⟩ ⟨1, 2, 3⟩ ⟨2, 2, 3⟩ [7, 9]).getD (1 + 0) 0 =
      (if aFracX.fractional = true
        then realToScaled ⟨10, 10, 10⟩ (pbcDistance ⟨10, 10, 10⟩ ⟨1, 2, 3⟩ ⟨2, 2, 3⟩)
        else pbcDistance ⟨10, 10, 10⟩ ⟨1, 2, 3⟩ ⟨2, 2, 3⟩).get
        (aFracX.axes.getD 0 axisDefault).dir :=
  (c8_performTask_layout aFracX ⟨10, 10, 10⟩ ⟨1, 2, 3⟩ ⟨2, 2, 3⟩ [7, 9]).2.2.2 0 (by decide)

end MultiColvarDens
